import Mathlib

/-!
# Verification of the stt_tts voice-assistant pipeline

Shallow embedding of the four pipeline modules of the repository
(`src/gemma_client.py`, `src/stt_whisper.py`, `src/tts_elevenlabs.py`,
`src/main.py`) and proofs of the specification claims about them.

External engines (the language model, the speech recognizer, the speech
synthesizer, the audio device layer) are modelled as outcome parameters:
either the underlying call raises (with a message) or it returns a value.
Python exceptions are modelled with `Except`; a Python function that
catches internally is a total Lean function whose catch branch is an
explicit match arm.
-/

namespace SttTts

/-- Drop leading whitespace characters from a character list. -/
def dropLeadingWs : List Char → List Char
  | [] => []
  | c :: cs => if c.isWhitespace then dropLeadingWs cs else c :: cs

/-- Python `str.strip()` on the strings appearing here: remove leading
and trailing whitespace (trailing via reversal). -/
def pyStrip (s : String) : String :=
  ⟨(dropLeadingWs (dropLeadingWs s.data).reverse).reverse⟩

/-! ## Conversation messages (gemma_client.py)

A history entry `{"role": r, "parts": [{"text": t}]}` is modelled by its
role and text. -/

structure Msg where
  role : String
  text : String
deriving Repr, DecidableEq

def userMsg (t : String) : Msg := ⟨"user", t⟩

def modelMsg (t : String) : Msg := ⟨"model", t⟩

/-- Outcome of `self.client.models.generate_content` together with the
text extraction loop of `gemma_client.py` lines 63-73: the call either
raises, or yields an accumulated `content_text` (possibly empty when the
response had no usable parts). -/
inductive EngineOutcome where
  | raises (e : String)
  | returns (contentText : String)
deriving Repr, DecidableEq

/-- `GemmaClient._update_conversation_history` (gemma_client.py lines
87-104): append the user entry then the model entry, then trim to the
last `max_history * 2` entries when the cap is exceeded
(`self.conversation_history[-max_history*2:]`). -/
def updateConversationHistory (maxHistory : Nat) (history : List Msg)
    (userInput assistantResponse : String) : List Msg :=
  let h := history ++ [userMsg userInput, modelMsg assistantResponse]
  if h.length > maxHistory * 2 then h.drop (h.length - maxHistory * 2) else h

/-- Python truthiness of the `context` argument (a list or `None`):
truthy exactly when it is a non-empty list. -/
def ctxTruthy : Option (List Msg) → Bool
  | some (_ :: _) => true
  | _ => false

/-- Observable result of one `generate_response` call: the returned
reply string, the final content of `self.conversation_history`, and the
final content of the caller-supplied `context` list (when one was
passed; Python lists are mutable references, so an in-place append by
the callee is visible to the caller). -/
structure GenResult where
  reply : String
  newHistory : List Msg
  newContext : Option (List Msg)
deriving Repr, DecidableEq

/-- `GemmaClient.generate_response` (gemma_client.py lines 38-85).

Lines 52-59: when `context or self.conversation_history` is truthy the
messages list is `context` itself (an alias, so the append at line 55
mutates the caller's list) or else a copy of the stored history; the
user entry for `prompt` is appended to it.  Lines 63-73 are the engine
call, modelled by `engine`.  Lines 75-79: on non-empty `content_text`
the stored history is updated only when `not context` (i.e. `context`
is `None` or the empty list), and the stripped text is returned.  Line
81: empty `content_text` returns the apology sentinel.  Lines 83-85:
any exception is caught and `"An error occurred: " ++ e` is returned;
the stored history was not touched, while an append into a truthy
caller context had already happened at line 55. -/
def generate_response (prompt : String) (context : Option (List Msg))
    (history : List Msg) (maxHistory : Nat) (engine : EngineOutcome) : GenResult :=
  let newContext : Option (List Msg) :=
    if ctxTruthy context then context.map (fun ctx => ctx ++ [userMsg prompt])
    else context
  match engine with
  | .raises e =>
      { reply := "An error occurred: " ++ e
        newHistory := history
        newContext := newContext }
  | .returns contentText =>
      if contentText = "" then
        { reply := "Sorry, I couldn\x27t generate a response. Please try again."
          newHistory := history
          newContext := newContext }
      else
        { reply := pyStrip contentText
          newHistory :=
            if ctxTruthy context then history
            else updateConversationHistory maxHistory history prompt contentText
          newContext := newContext }

/-! ## Sessions: sequences of orchestrator turns

`main.py` line 98 calls `generate_response(prompt=text, ...)` with no
`context` argument, so a session's effect on the stored history is a
fold of context-free calls.  A turn is a prompt together with the
engine's outcome for it. -/

/-- Effect of one context-free `generate_response` call on the stored
conversation history. -/
def stepTurn (maxHistory : Nat) (h : List Msg) (t : String × EngineOutcome) : List Msg :=
  (generate_response t.1 none h maxHistory t.2).newHistory

/-- Stored history after a sequence of turns starting from the empty
history of a fresh `GemmaClient`. -/
def sessionHistory (maxHistory : Nat) (turns : List (String × EngineOutcome)) : List Msg :=
  turns.foldl (stepTurn maxHistory) []

/-- The (prompt, content_text) pairs of the successful turns of a
session, in chronological order: those whose engine call returned a
non-empty `content_text`. -/
def successPairs (turns : List (String × EngineOutcome)) : List (String × String) :=
  turns.filterMap (fun t =>
    match t.2 with
    | .returns s => if s = "" then none else some (t.1, s)
    | .raises _ => none)

/-- Render a list of (user, assistant) pairs as a flat message list. -/
def renderPairs (ps : List (String × String)) : List Msg :=
  ps.flatMap (fun p => [userMsg p.1, modelMsg p.2])

/-- The last `n` elements of a list (Python `l[-n:]` for `0 < n ≤ len`,
and `l` itself when `n ≥ len`). -/
def takeLast (n : Nat) (l : List α) : List α := l.drop (l.length - n)

/-! ## Audio capture and transcription (stt_whisper.py) -/

/-- A recorded mono audio buffer; the samples themselves are opaque for
this development (the `.flatten()` at stt_whisper.py line 98 is a shape
change on the same samples and is absorbed into the buffer value). -/
abbrev AudioBuffer := List Int

/-- Outcome of the underlying `sd.rec`/`sd.wait` recording call. -/
inductive RecOutcome where
  | raises (e : String)
  | returns (buf : AudioBuffer)
deriving Repr, DecidableEq

/-- `WhisperSTT.record_audio` (stt_whisper.py lines 71-102).

Line 81-82: a `None` device id raises a `RuntimeError` (modelled as
`Except.error` with the message, emoji elided) which propagates to the
caller.  Lines 87-102: the recording call is inside `try`; if it
raises, the handler at line 100 catches it and the function returns
`None` (modelled `Except.ok none`), otherwise the flattened buffer is
returned. -/
def record_audio (deviceId : Option Nat) (rec : RecOutcome) :
    Except String (Option AudioBuffer) :=
  match deviceId with
  | none => .error "작동하는 오디오 입력 장치가 없습니다. Windows 마이크 권한을 확인하세요."
  | some _ =>
      match rec with
      | .raises _ => .ok none
      | .returns buf => .ok (some buf)

/-- Outcome of `self.model.transcribe(...)`: raises, or returns a result
whose `"text"` field is the given string. -/
inductive WhisperOutcome where
  | raises (e : String)
  | returns (text : String)
deriving Repr, DecidableEq

/-- Python truthiness of the `audio_path` argument: truthy exactly when
it is a non-empty string. -/
def pathTruthy : Option String → Bool
  | some p => p ≠ ""
  | none => false

/-- Body of the `try` block of `WhisperSTT.transcribe_audio`
(stt_whisper.py lines 116-125): transcribe the file when
`audio_path and os.path.exists(audio_path)`, else the buffer when
`audio_data is not None`, else raise `ValueError`; on success return
the stripped `result["text"]`.  An `Except.error` is a raise escaping
this block (the whisper call raising, or the `ValueError`). -/
def transcribeBody (audioData : Option AudioBuffer) (audioPath : Option String)
    (pathExists : Bool) (whisper : WhisperOutcome) : Except String String :=
  if pathTruthy audioPath && pathExists then
    match whisper with
    | .raises e => .error e
    | .returns t => .ok (pyStrip t)
  else if audioData.isSome then
    match whisper with
    | .raises e => .error e
    | .returns t => .ok (pyStrip t)
  else
    .error "Either audio_data or audio_path must be provided"

/-- `WhisperSTT.transcribe_audio` (stt_whisper.py lines 104-129): the
`try` body wrapped in the `except` handler of lines 127-129, which
absorbs every raise and returns the empty string.  The function itself
therefore never raises: its result is always `Except.ok`. -/
def transcribe_audio (audioData : Option AudioBuffer) (audioPath : Option String)
    (pathExists : Bool) (whisper : WhisperOutcome) : Except String String :=
  match transcribeBody audioData audioPath pathExists whisper with
  | .ok t => .ok t
  | .error _ => .ok ""

/-! ## Audio device resolution (stt_whisper.py) -/

/-- One entry of `sd.query_devices()`: its name and
`max_input_channels` field. -/
structure SdDevice where
  name : String
  maxInputChannels : Nat
deriving Repr, DecidableEq

/-- The probe loop of `WhisperSTT._find_working_device` (stt_whisper.py
lines 41-58), scanning devices from index `i`: a device reporting zero
input channels is skipped without a trial; otherwise a ≈0.1 s trial
recording is attempted (`trial i = true` when it completes without
raising); the first succeeding index is returned.  The second component
collects the indices on which a trial recording was attempted. -/
def findScan (trial : Nat → Bool) (devices : List SdDevice) (i : Nat) :
    Option Nat × List Nat :=
  match devices with
  | [] => (none, [])
  | d :: rest =>
      if d.maxInputChannels > 0 then
        if trial i then (some i, [i])
        else
          let r := findScan trial rest (i + 1)
          (r.1, i :: r.2)
      else findScan trial rest (i + 1)

/-- `WhisperSTT._find_working_device` (stt_whisper.py lines 29-69):
scan the enumeration from index 0; when no candidate passes (in
particular when the enumeration is empty) the result is `none`
(diagnostics printed, lines 60-65). -/
def find_working_device (trial : Nat → Bool) (devices : List SdDevice) :
    Option Nat × List Nat :=
  findScan trial devices 0

/-! ## Speech synthesis (tts_elevenlabs.py)

The synthesis engine produces audio as an iterator of byte chunks, both
from `convert` (buffered) and from `stream` (streamed).  A Python
generator object is always truthy, even when exhausted, while a bytes
value is truthy exactly when non-empty; the two shapes a
`text_to_speech` call can return are kept apart. -/

abbrev ByteChunk := List Nat

/-- Outcome of a call to the synthesis engine
(`client.text_to_speech.convert` or `client.text_to_speech.stream`). -/
inductive TtsEngineOutcome where
  | raises (e : String)
  | returns (chunks : List ByteChunk)
deriving Repr, DecidableEq

/-- A value returned by `text_to_speech`: the iterator object from the
buffered branch (carrying the chunks it can still yield — after the
save loop at tts_elevenlabs.py lines 144-146 it is exhausted but is
still the same object), or the joined bytes of the streamed branch. -/
inductive TtsAudio where
  | iter (remaining : List ByteChunk)
  | bytes (data : List Nat)
deriving Repr, DecidableEq

/-- Python truthiness of an audio value: `None` and empty bytes are
falsy; a generator object is truthy even when exhausted. -/
def audioTruthy : Option TtsAudio → Bool
  | none => false
  | some (.iter _) => true
  | some (.bytes d) => d ≠ []

/-- Observable effect of one `text_to_speech` call: the returned value
(`none` models Python `None`), the file written (path and chunk
sequence) if any, and how many times the synthesis engine was
invoked. -/
structure TtsCall where
  result : Option TtsAudio
  saved : Option (String × List ByteChunk)
  engineCalls : Nat
deriving Repr, DecidableEq

/-- `ElevenLabsTTS.text_to_speech` (tts_elevenlabs.py lines 86-153).

Lines 101-103: text that strips to empty returns `None` before any
engine call.  The rest of the body sits in `try`; an engine raise is
caught at lines 151-153 and the function returns `None` (the raise
happens at the engine call, before any file write).  Streamed branch
(112-131): with a save path the stream is written to the file and
`None` is returned (line 127); without one the chunks are joined into
bytes and returned.  Buffered branch (132-149): `convert` is called
once; with a save path the iterator is exhausted into the file and the
(exhausted) iterator object is still returned at line 149; without one
the unconsumed iterator is returned. -/
def text_to_speech (text : String) (savePath : Option String)
    (streamAudio : Bool) (engine : TtsEngineOutcome) : TtsCall :=
  if pyStrip text = "" then ⟨none, none, 0⟩
  else
    match engine with
    | .raises _ => ⟨none, none, 1⟩
    | .returns chunks =>
        if streamAudio then
          match savePath with
          | some p => ⟨none, some (p, chunks), 1⟩
          | none => ⟨some (.bytes chunks.flatten), none, 1⟩
        else
          match savePath with
          | some p => ⟨some (.iter []), some (p, chunks), 1⟩
          | none => ⟨some (.iter chunks), none, 1⟩

/-- Outcome of the playback call (`play` or `stream` of the elevenlabs
package). -/
inductive PlayOutcome where
  | raises (e : String)
  | ok
deriving Repr, DecidableEq

/-- Observable effect of one `play_audio` call: whether `play` was
invoked, and whether it completed without raising. -/
structure PlayCall where
  playInvoked : Bool
  playSucceeded : Bool
deriving Repr, DecidableEq

/-- `ElevenLabsTTS.play_audio` (tts_elevenlabs.py lines 155-171).
Falsy audio data returns at line 164 without invoking `play`; a raise
from `play` is caught at lines 170-171.  The function never raises. -/
def play_audio (audioData : Option TtsAudio) (player : PlayOutcome) : PlayCall :=
  if audioTruthy audioData then
    match player with
    | .raises _ => ⟨true, false⟩
    | .ok => ⟨true, true⟩
  else ⟨false, false⟩

/-- Observable effect of one `speak` call that returned normally. -/
structure SpeakResult where
  ttsResult : Option TtsAudio
  played : Bool
  streamedChunks : Option (List ByteChunk)
deriving Repr, DecidableEq

/-- `ElevenLabsTTS.speak` (tts_elevenlabs.py lines 173-195).

Streamed mode (lines 183-190): `client.text_to_speech.stream` and then
`stream(audio_stream)` are called directly, with no `try`/`except` and
no empty-text check, so a raise from either propagates to the caller
(`Except.error`).  Buffered mode (lines 191-195): `text_to_speech`
(which absorbs failures) and, when its result is truthy, `play_audio`
(which also absorbs failures), so the call always returns normally. -/
def speak (text : String) (streamAudio : Bool)
    (engineConvert engineStream : TtsEngineOutcome)
    (player streamer : PlayOutcome) : Except String SpeakResult :=
  if streamAudio then
    match engineStream with
    | .raises e => .error e
    | .returns chunks =>
        match streamer with
        | .raises e => .error e
        | .ok => .ok ⟨none, false, some chunks⟩
  else
    let t := text_to_speech text none false engineConvert
    if audioTruthy t.result then
      let p := play_audio t.result player
      .ok ⟨t.result, p.playInvoked, none⟩
    else .ok ⟨t.result, false, none⟩

/-! ## The turn orchestrator (main.py) -/

/-- Observable effects of one `VoiceAssistant.process_voice_input` call:
whether `generate_response` was invoked, the text forwarded to
`tts.speak` (if any), and the returned value (`none` models Python
`None`). -/
structure TurnResult where
  llmCalled : Bool
  spokenText : Option String
  returned : Option String
deriving Repr, DecidableEq

/-- `VoiceAssistant.process_voice_input` (main.py lines 74-118),
together with the stored conversation history it threads through the
`GemmaClient`.

Line 88 transcribes (the adapter never raises, so the outer `except` of
lines 116-118 is unreachable from it); lines 90-92 return `None` on an
empty transcript before any language-model call; line 98 calls
`generate_response` with no context (the `temperature` and
`max_output_tokens` keyword arguments land in `**kwargs` and are
unused); lines 104-106 return `None` on an empty reply; line 112 speaks
the reply (buffered mode) and line 114 returns it. -/
def process_voice_input (audioData : Option AudioBuffer) (audioPath : Option String)
    (pathExists : Bool) (whisper : WhisperOutcome) (engine : EngineOutcome)
    (history : List Msg) : TurnResult × List Msg :=
  match transcribe_audio audioData audioPath pathExists whisper with
  | .error _ => (⟨false, none, none⟩, history)
  | .ok text =>
      if text = "" then (⟨false, none, none⟩, history)
      else
        let g := generate_response text none history 10 engine
        if g.reply = "" then (⟨true, none, none⟩, g.newHistory)
        else (⟨true, some g.reply, some g.reply⟩, g.newHistory)

/-! ## Shared lemmas -/

/-- The error sentinel of `generate_response` is never the empty
string, whatever the exception message. -/
lemma errorSentinel_ne_empty (e : String) : "An error occurred: " ++ e ≠ "" := by
  intro h
  have h2 := congrArg String.length h
  simp [String.length_append] at h2
  exact absurd h2.1 (by decide)

/-! ## Claim theorems -/

/-- C2: when the underlying language-model call raises,
`generate_response` leaves the stored conversation history exactly as
it was before the call and returns the "generation failed" sentinel
reply carrying the failure reason instead of propagating the
exception. -/
theorem generate_response_raise_preserves_history (prompt : String)
    (context : Option (List Msg)) (history : List Msg) (maxHistory : Nat)
    (e : String) :
    (generate_response prompt context history maxHistory (.raises e)).newHistory
      = history ∧
    (generate_response prompt context history maxHistory (.raises e)).reply
      = "An error occurred: " ++ e :=
  ⟨rfl, rfl⟩

/-- C3: whenever transcription yields the empty transcript,
`process_voice_input` returns `None` before invoking
`generate_response`: no language-model call is issued and the history
is untouched. -/
theorem process_voice_input_empty_transcript_skips_llm
    (audioData : Option AudioBuffer) (audioPath : Option String)
    (pathExists : Bool) (whisper : WhisperOutcome) (engine : EngineOutcome)
    (history : List Msg)
    (h : transcribe_audio audioData audioPath pathExists whisper = .ok "") :
    process_voice_input audioData audioPath pathExists whisper engine history =
      ({ llmCalled := false, spokenText := none, returned := none }, history) := by
  simp [process_voice_input, h]

/-- Witness for C3: a turn with no audio input transcribes to the empty
transcript, and the orchestrator then issues no language-model call. -/
theorem process_voice_input_empty_transcript_skips_llm_witness :
    transcribe_audio none none false (.returns "hello") = .ok "" ∧
    process_voice_input none none false (.returns "hello") (.raises "boom") [] =
      ({ llmCalled := false, spokenText := none, returned := none }, []) :=
  ⟨rfl, process_voice_input_empty_transcript_skips_llm none none false
    (.returns "hello") (.raises "boom") [] rfl⟩

/-- C10: when the language-model call raises on a turn with a non-empty
transcript, `generate_response` returns a non-empty error string, so
the orchestrator's `if not response` check does not detect the failure:
the sentinel text is forwarded to speech synthesis and returned as the
turn's reply instead of the turn being aborted. -/
theorem process_voice_input_speaks_error_sentinel
    (audioData : Option AudioBuffer) (audioPath : Option String)
    (pathExists : Bool) (whisper : WhisperOutcome) (e : String)
    (history : List Msg) (t : String)
    (htr : transcribe_audio audioData audioPath pathExists whisper = .ok t)
    (ht : t ≠ "") :
    process_voice_input audioData audioPath pathExists whisper (.raises e) history =
      ({ llmCalled := true, spokenText := some ("An error occurred: " ++ e),
         returned := some ("An error occurred: " ++ e) }, history) := by
  simp only [process_voice_input, htr]
  rw [if_neg ht, if_neg (by exact errorSentinel_ne_empty e)]
  rfl

/-- Witness for C10: a turn whose transcript is "hello" and whose
language-model call raises "boom" speaks and returns the sentinel. -/
theorem process_voice_input_speaks_error_sentinel_witness :
    transcribe_audio (some [1]) none false (.returns "hello") = .ok "hello" ∧
    process_voice_input (some [1]) none false (.returns "hello") (.raises "boom") [] =
      ({ llmCalled := true, spokenText := some "An error occurred: boom",
         returned := some "An error occurred: boom" }, []) :=
  ⟨rfl, process_voice_input_speaks_error_sentinel (some [1]) none false
    (.returns "hello") "boom" [] "hello" rfl (by decide)⟩

/-- C5 counterexample: when the underlying recording call raises, the
claim says `record` fails with `CaptureFailure`; instead the code
catches the raise and returns `None` — a normal (non-error) return. -/
theorem record_audio_raise_does_not_fail :
    record_audio (some 0) (.raises "PortAudio error") = .ok none :=
  rfl

/-- C5 (amended): `record_audio` raises a `RuntimeError` (device
unavailable) when the device handle is null; when the underlying
recording call raises it absorbs the error and returns the null buffer
instead of failing; in the non-failure case it returns the recorded
buffer. -/
theorem record_audio_contract (i : Nat) (e : String) (buf : AudioBuffer) :
    record_audio none (.raises e) =
      .error "작동하는 오디오 입력 장치가 없습니다. Windows 마이크 권한을 확인하세요." ∧
    record_audio none (.returns buf) =
      .error "작동하는 오디오 입력 장치가 없습니다. Windows 마이크 권한을 확인하세요." ∧
    record_audio (some i) (.raises e) = .ok none ∧
    record_audio (some i) (.returns buf) = .ok (some buf) :=
  ⟨rfl, rfl, rfl, rfl⟩

/-- C6 counterexample: called with neither an audio buffer nor a file
path, the claim says the `InvalidInput` error reaches the caller; the
code raises the `ValueError` inside its own `try` block and the
`except` handler converts it to the normal return value `""`. -/
theorem transcribe_audio_no_input_not_an_error :
    transcribe_audio none none false (.returns "hello") = .ok "" :=
  rfl

/-- C6 (amended): with neither input supplied, `transcribe_audio`
raises `ValueError` internally (the `try`-block body fails with that
message), but its own exception handler catches it and the caller
receives the empty transcript as a normal return; no error reaches the
caller. -/
theorem transcribe_audio_no_input (pathExists : Bool) (whisper : WhisperOutcome) :
    transcribeBody none none pathExists whisper =
      .error "Either audio_data or audio_path must be provided" ∧
    transcribe_audio none none pathExists whisper = .ok "" := by
  constructor <;> rfl

/-- C9 counterexample: the claim says a caller-supplied context list is
mutated in place by the message-assembly append; but an explicit empty
context list is falsy in Python (`context or ...` falls through to the
stored history), so the caller's empty list is left untouched. -/
theorem generate_response_empty_context_not_mutated :
    (generate_response "hi" (some []) [] 10 (.returns "ok")).newContext = some [] ∧
    (generate_response "hi" (some []) [] 10 (.returns "ok")).newContext ≠
      some [userMsg "hi"] := by
  constructor
  · rfl
  · intro h
    simp [generate_response, ctxTruthy] at h

/-- C9 (amended): when `generate_response` is called with a non-empty
explicit context list, the new user-prompt entry is appended to the
caller's list in place and the stored history is never touched (for
every engine outcome); when the context is absent the stored history is
only copied for message assembly, so a failing call leaves it
unchanged; and an explicit empty context list — being falsy — is not
mutated at all. -/
theorem generate_response_context_mutation (prompt : String) (c : Msg)
    (ctx history : List Msg) (maxHistory : Nat) (engine : EngineOutcome)
    (e : String) :
    ((generate_response prompt (some (c :: ctx)) history maxHistory engine).newContext
        = some ((c :: ctx) ++ [userMsg prompt]) ∧
      (generate_response prompt (some (c :: ctx)) history maxHistory engine).newHistory
        = history) ∧
    (generate_response prompt none history maxHistory (.raises e)).newHistory
      = history ∧
    (generate_response prompt (some []) history maxHistory engine).newContext
      = some [] := by
  refine ⟨⟨?_, ?_⟩, rfl, ?_⟩
  all_goals
    cases engine with
    | raises e2 => simp [generate_response, ctxTruthy]
    | returns s => by_cases hs : s = "" <;> simp [generate_response, ctxTruthy, hs]

/-- C4 counterexample: the claim says `speak` absorbs failures in both
modes; but in streamed mode `speak` calls the synthesis engine directly
with no `try`/`except`, so an engine raise propagates past the adapter
boundary to the caller. -/
theorem speak_streamed_raise_propagates :
    speak "hello" true (.returns [[1]]) (.raises "api down") .ok .ok =
      .error "api down" :=
  rfl

/-- C4 (amended): `text_to_speech` absorbs failures (an engine raise
yields the null result and writes no file; text that strips to empty
returns the null result without an engine call), `play_audio` absorbs a
playback raise, and `speak` in buffered mode always returns normally;
`speak` in streamed mode, however, has no handler and no empty-text
check, so engine or playback raises propagate to the caller. -/
theorem tts_failure_absorption (text : String) (savePath : Option String)
    (streamAudio : Bool) (e : String) (engine engineConvert engineStream : TtsEngineOutcome)
    (audioData : Option TtsAudio) (player streamer : PlayOutcome) :
    (text_to_speech text savePath streamAudio (.raises e)).result = none ∧
    (text_to_speech text savePath streamAudio (.raises e)).saved = none ∧
    text_to_speech "  " savePath streamAudio engine =
      { result := none, saved := none, engineCalls := 0 } ∧
    (play_audio audioData (.raises e)).playSucceeded = false ∧
    (speak text false engineConvert engineStream player streamer).isOk = true := by
  refine ⟨?_, ?_, ?_, ?_, ?_⟩
  · by_cases h : pyStrip text = "" <;> simp [text_to_speech, h]
  · by_cases h : pyStrip text = "" <;> simp [text_to_speech, h]
  · have h0 : pyStrip "  " = "" := by decide
    simp [text_to_speech, h0]
  · by_cases h : audioTruthy audioData = true <;> simp [play_audio, h]
  · unfold speak
    rw [if_neg (by decide : ¬ ((false : Bool) = true))]
    cases ha : audioTruthy (text_to_speech text none false engineConvert).result <;>
      simp [ha, Except.isOk, Except.toBool]

/-- C7 counterexample: in buffered mode with an output path, the claim
says the call returns no in-memory payload; the code writes the
iterator to the file and then still returns the (now exhausted)
iterator object, which is not the null result. -/
theorem text_to_speech_buffered_save_returns_object :
    (text_to_speech "hi" (some "out.mp3") false (.returns [[1, 2], [3]])).result =
      some (.iter []) ∧
    (text_to_speech "hi" (some "out.mp3") false (.returns [[1, 2], [3]])).result ≠
      none := by
  exact ⟨rfl, by decide⟩

/-- C7 (amended): in buffered mode, for every text that does not strip
to empty, `text_to_speech` invokes the synthesis engine exactly once
and returns the full audio payload as the iterator of byte chunks; if
an output path is also given the payload is persisted to that path, but
the call still returns the (exhausted, non-null) audio object — only
streamed mode with an output path returns no in-memory payload. -/
theorem text_to_speech_buffered (text : String) (chunks : List ByteChunk)
    (p : String) (h : pyStrip text ≠ "") :
    text_to_speech text none false (.returns chunks) =
      { result := some (.iter chunks), saved := none, engineCalls := 1 } ∧
    text_to_speech text (some p) false (.returns chunks) =
      { result := some (.iter []), saved := some (p, chunks), engineCalls := 1 } ∧
    text_to_speech text (some p) true (.returns chunks) =
      { result := none, saved := some (p, chunks), engineCalls := 1 } := by
  refine ⟨?_, ?_, ?_⟩ <;> simp [text_to_speech, h]

/-- Witness for C7 (amended): the buffered branches evaluated on the
text "hi" with a two-chunk payload. -/
theorem text_to_speech_buffered_witness :
    pyStrip "hi" ≠ "" ∧
    text_to_speech "hi" none false (.returns [[1, 2], [3]]) =
      { result := some (.iter [[1, 2], [3]]), saved := none, engineCalls := 1 } :=
  ⟨by decide, (text_to_speech_buffered "hi" [[1, 2], [3]] "out.mp3" (by decide)).1⟩


/-- Characterization of a successful probe scan started at offset `i`:
the found index is the first (in declaration order) whose device
reports input channels and whose trial recording succeeds. -/
lemma findScan_found (trial : Nat → Bool) :
    ∀ (devices : List SdDevice) (i k : Nat),
      (findScan trial devices i).1 = some k →
      i ≤ k ∧ k - i < devices.length ∧
        (devices.getD (k - i) ⟨"", 0⟩).maxInputChannels > 0 ∧ trial k = true ∧
        ∀ j, i ≤ j → j < k →
          (devices.getD (j - i) ⟨"", 0⟩).maxInputChannels = 0 ∨ trial j = false := by
  intro devices
  induction devices with
  | nil => intro i k h; simp [findScan] at h
  | cons d rest ih =>
      intro i k h
      by_cases hc : d.maxInputChannels > 0
      · by_cases ht : trial i = true
        · simp only [findScan, if_pos hc, if_pos ht] at h
          have hk : k = i := by simpa using h.symm
          subst hk
          refine ⟨le_refl k, by simp, by simpa using hc, ht, ?_⟩
          intro j hj1 hj2
          omega
        · simp only [findScan, if_pos hc, if_neg ht] at h
          obtain ⟨h1, h2, h3, h4, h5⟩ := ih (i + 1) k h
          have hki : 1 ≤ k - i := by omega
          refine ⟨by omega, by simp; omega, ?_, h4, ?_⟩
          · have he : k - i = (k - (i + 1)) + 1 := by omega
            rw [he, List.getD_cons_succ]
            exact h3
          · intro j hj1 hj2
            rcases Nat.eq_or_lt_of_le hj1 with hji | hji
            · subst hji
              right
              simpa using ht
            · have he : j - i = (j - (i + 1)) + 1 := by omega
              rw [he, List.getD_cons_succ]
              exact h5 j (by omega) hj2
      · simp only [findScan, if_neg hc] at h
        obtain ⟨h1, h2, h3, h4, h5⟩ := ih (i + 1) k h
        refine ⟨by omega, by simp; omega, ?_, h4, ?_⟩
        · have he : k - i = (k - (i + 1)) + 1 := by omega
          rw [he, List.getD_cons_succ]
          exact h3
        · intro j hj1 hj2
          rcases Nat.eq_or_lt_of_le hj1 with hji | hji
          · subst hji
            left
            simp
            omega
          · have he : j - i = (j - (i + 1)) + 1 := by omega
            rw [he, List.getD_cons_succ]
            exact h5 j (by omega) hj2

/-- Every index on which the probe scan attempted a trial recording
belongs to a device reporting at least one input channel. -/
lemma findScan_trials (trial : Nat → Bool) :
    ∀ (devices : List SdDevice) (i : Nat) (k : Nat),
      k ∈ (findScan trial devices i).2 →
      i ≤ k ∧ k - i < devices.length ∧
        (devices.getD (k - i) ⟨"", 0⟩).maxInputChannels > 0 := by
  intro devices
  induction devices with
  | nil => intro i k h; simp [findScan] at h
  | cons d rest ih =>
      intro i k h
      by_cases hc : d.maxInputChannels > 0
      · by_cases ht : trial i = true
        · simp only [findScan, if_pos hc, if_pos ht, List.mem_singleton] at h
          subst h
          exact ⟨le_refl k, by simp, by simpa using hc⟩
        · simp only [findScan, if_pos hc, if_neg ht, List.mem_cons] at h
          rcases h with h | h
          · subst h
            exact ⟨le_refl k, by simp, by simpa using hc⟩
          · obtain ⟨h1, h2, h3⟩ := ih (i + 1) k h
            have he : k - i = (k - (i + 1)) + 1 := by omega
            refine ⟨by omega, by simp; omega, ?_⟩
            rw [he, List.getD_cons_succ]
            exact h3
      · simp only [findScan, if_neg hc] at h
        obtain ⟨h1, h2, h3⟩ := ih (i + 1) k h
        have he : k - i = (k - (i + 1)) + 1 := by omega
        refine ⟨by omega, by simp; omega, ?_⟩
        rw [he, List.getD_cons_succ]
        exact h3

/-- C8: `_find_working_device` enumerates the platform input devices
in declaration order, skips every device reporting zero input channels
(no trial recording is attempted on those), runs a trial recording on
each remaining candidate and returns the first candidate whose trial
completes without error; on an empty enumeration it returns the null
handle and attempts no trial recording. -/
theorem find_working_device_spec (trial : Nat → Bool) (devices : List SdDevice) :
    find_working_device trial [] = (none, []) ∧
    (∀ k, (find_working_device trial devices).1 = some k →
      k < devices.length ∧
        (devices.getD k ⟨"", 0⟩).maxInputChannels > 0 ∧ trial k = true ∧
        ∀ j, j < k →
          (devices.getD j ⟨"", 0⟩).maxInputChannels = 0 ∨ trial j = false) ∧
    (∀ k ∈ (find_working_device trial devices).2,
      (devices.getD k ⟨"", 0⟩).maxInputChannels > 0) := by
  refine ⟨rfl, ?_, ?_⟩
  · intro k h
    obtain ⟨h1, h2, h3, h4, h5⟩ := findScan_found trial devices 0 k h
    simp only [Nat.sub_zero] at h2 h3
    exact ⟨h2, h3, h4, fun j hj => by simpa using h5 j (Nat.zero_le j) hj⟩
  · intro k h
    obtain ⟨h1, h2, h3⟩ := findScan_trials trial devices 0 k h
    simpa using h3

/-- Witness for C8: with devices ⟨"mic0", 0⟩ and ⟨"mic1", 2⟩ and every
trial succeeding, the resolver skips the channel-less device and
returns index 1. -/
theorem find_working_device_spec_witness :
    (find_working_device (fun _ => true)
        [SdDevice.mk "mic0" 0, SdDevice.mk "mic1" 2]).1 = some 1 ∧
    (1 < 2 ∧
      (([SdDevice.mk "mic0" 0, SdDevice.mk "mic1" 2].getD 1 ⟨"", 0⟩).maxInputChannels > 0 ∧
        (fun _ => true) 1 = true ∧
        ∀ j, j < 1 →
          (([SdDevice.mk "mic0" 0, SdDevice.mk "mic1" 2].getD j ⟨"", 0⟩).maxInputChannels = 0 ∨
            (fun _ => true) j = false))) :=
  ⟨rfl, (find_working_device_spec (fun _ => true)
      [SdDevice.mk "mic0" 0, SdDevice.mk "mic1" 2]).2.1 1 rfl⟩



/-- Rendering no pairs gives the empty history. -/
lemma renderPairs_nil : renderPairs [] = [] := rfl

/-- Rendering a pair list unfolds one (user, assistant) pair at a time. -/
lemma renderPairs_cons (p : String × String) (ps : List (String × String)) :
    renderPairs (p :: ps) = userMsg p.1 :: modelMsg p.2 :: renderPairs ps := rfl

/-- Rendering distributes over list append. -/
lemma renderPairs_append (ps qs : List (String × String)) :
    renderPairs (ps ++ qs) = renderPairs ps ++ renderPairs qs := by
  simp [renderPairs]

/-- A rendered pair list has twice as many entries as pairs. -/
lemma renderPairs_length (ps : List (String × String)) :
    (renderPairs ps).length = 2 * ps.length := by
  induction ps with
  | nil => rfl
  | cons p ps ih =>
      simp only [renderPairs_cons, List.length_cons, ih]
      omega

/-- Taking at least as many elements as the list has returns the list. -/
lemma takeLast_of_le {l : List α} {n : Nat} (h : l.length ≤ n) : takeLast n l = l := by
  simp [takeLast, Nat.sub_eq_zero_of_le h]

/-- The last-`n` window never holds more than `n` elements. -/
lemma takeLast_length_le (n : Nat) (l : List α) : (takeLast n l).length ≤ n := by
  simp [takeLast]
  omega

/-- The last-`n` window of a long enough list holds exactly `n` elements. -/
lemma takeLast_length_of_le {n : Nat} {l : List α} (h : n ≤ l.length) :
    (takeLast n l).length = n := by
  simp [takeLast]
  omega

/-- Appending one element to a last-`n` window shifts the window by one. -/
lemma takeLast_append_one (n : Nat) (hn : 1 ≤ n) (l : List α) (x : α) :
    takeLast n (l ++ [x]) = takeLast (n - 1) l ++ [x] := by
  unfold takeLast
  have h1 : l.length + 1 - n ≤ l.length := by omega
  have h2 : (l ++ [x]).length = l.length + 1 := by simp
  rw [h2, List.drop_append_of_le_length h1]
  have h3 : l.length + 1 - n = l.length - (n - 1) := by omega
  rw [h3]

/-- Dropping the head of a full last-`n` window leaves the last-`(n-1)` window. -/
lemma tail_takeLast (n : Nat) (l : List α) (hn : 1 ≤ n) (h : n ≤ l.length) :
    (takeLast n l).tail = takeLast (n - 1) l := by
  unfold takeLast
  rw [List.tail_drop]
  have h3 : l.length - n + 1 = l.length - (n - 1) := by omega
  rw [h3]

/-- Key step: applying `_update_conversation_history` to the render of
the last `mh` success pairs yields the render of the last `mh` pairs
after appending the new pair — the trim evicts exactly the oldest
pair. -/
lemma update_render (mh : Nat) (ps : List (String × String)) (u a : String) :
    updateConversationHistory mh (renderPairs (takeLast mh ps)) u a =
      renderPairs (takeLast mh (ps ++ [(u, a)])) := by
  unfold updateConversationHistory
  have hline : renderPairs (takeLast mh ps) ++ [userMsg u, modelMsg a] =
      renderPairs (takeLast mh ps ++ [(u, a)]) := by
    rw [renderPairs_append]
    rfl
  by_cases hfull : mh ≤ ps.length
  · -- the window is full: the oldest pair is evicted
    have hk : (takeLast mh ps).length = mh := takeLast_length_of_le hfull
    have hlen : (renderPairs (takeLast mh ps) ++ [userMsg u, modelMsg a]).length =
        2 * mh + 2 := by
      simp [renderPairs_length, hk]
    rw [if_pos (by rw [hlen]; omega)]
    rw [hlen, hline]
    have hdrop : 2 * mh + 2 - mh * 2 = 2 := by omega
    rw [hdrop]
    cases mh with
    | zero =>
        have h0 : takeLast 0 ps = [] := by
          have := takeLast_length_le 0 ps
          exact List.eq_nil_of_length_eq_zero (by omega)
        have h0' : takeLast 0 (ps ++ [(u, a)]) = [] := by
          have := takeLast_length_le 0 (ps ++ [(u, a)])
          exact List.eq_nil_of_length_eq_zero (by omega)
        rw [h0, h0']
        rfl
    | succ m =>
        obtain ⟨q, rest, hqr⟩ := List.exists_cons_of_ne_nil
          (show takeLast (m + 1) ps ≠ [] by intro hnil; rw [hnil] at hk; simp at hk)
        have hrest : rest = takeLast m ps := by
          have h4 := tail_takeLast (m + 1) ps (by omega) hfull
          rw [hqr] at h4
          simp only [List.tail_cons, Nat.add_sub_cancel] at h4
          exact h4
        rw [takeLast_append_one (m + 1) (by omega) ps (u, a), hqr, hrest]
        simp only [Nat.add_sub_cancel]
        rw [List.cons_append, renderPairs_cons]
        rfl
  · -- the window is not yet full: nothing is evicted
    have h1 : takeLast mh ps = ps := takeLast_of_le (by omega)
    have h2 : takeLast mh (ps ++ [(u, a)]) = ps ++ [(u, a)] :=
      takeLast_of_le (by simp; omega)
    rw [h1] at hline ⊢
    rw [h2]
    rw [if_neg (by simp [renderPairs_length]; omega)]
    rw [hline, renderPairs_append]

/-- A turn whose engine call raises leaves the stored history unchanged. -/
lemma stepTurn_raises (mh : Nat) (h : List Msg) (u e : String) :
    stepTurn mh h (u, .raises e) = h := rfl

/-- A turn whose engine call yields empty text leaves the stored history unchanged. -/
lemma stepTurn_empty (mh : Nat) (h : List Msg) (u : String) :
    stepTurn mh h (u, .returns "") = h := by
  simp [stepTurn, generate_response]

/-- A successful turn updates the stored history through `_update_conversation_history`. -/
lemma stepTurn_success (mh : Nat) (h : List Msg) (u s : String) (hs : s ≠ "") :
    stepTurn mh h (u, .returns s) = updateConversationHistory mh h u s := by
  simp [stepTurn, generate_response, ctxTruthy, hs]

/-- A raising turn contributes no success pair. -/
lemma successPairs_cons_raises (u e : String) (ts : List (String × EngineOutcome)) :
    successPairs ((u, .raises e) :: ts) = successPairs ts := by
  simp [successPairs]

/-- A returning turn contributes its pair exactly when the text is non-empty. -/
lemma successPairs_cons_returns (u s : String) (ts : List (String × EngineOutcome)) :
    successPairs ((u, .returns s) :: ts) =
      if s = "" then successPairs ts else (u, s) :: successPairs ts := by
  by_cases hs : s = "" <;> simp [successPairs, List.filterMap_cons, hs]

/-- Generalized invariant: folding any further turns over a history
that renders the last `mh` pairs of some chronological pair list `ps`
yields the render of the last `mh` pairs of `ps` extended by the new
successes, in order. -/
lemma sessionHistory_aux (mh : Nat) :
    ∀ (turns : List (String × EngineOutcome)) (ps : List (String × String)),
      turns.foldl (stepTurn mh) (renderPairs (takeLast mh ps)) =
        renderPairs (takeLast mh (ps ++ successPairs turns)) := by
  intro turns
  induction turns with
  | nil => intro ps; simp [successPairs]
  | cons t ts ih =>
      intro ps
      obtain ⟨u, eng⟩ := t
      cases eng with
      | raises e =>
          simp only [List.foldl_cons, stepTurn_raises, successPairs_cons_raises]
          exact ih ps
      | returns s =>
          by_cases hs : s = ""
          · subst hs
            simp only [List.foldl_cons, stepTurn_empty, successPairs_cons_returns,
              if_pos rfl]
            exact ih ps
          · simp only [List.foldl_cons, stepTurn_success mh _ u s hs,
              successPairs_cons_returns, if_neg hs]
            rw [update_render]
            rw [ih (ps ++ [(u, s)])]
            congr 1
            simp

/-- C1: after any sequence of turns, the stored conversation history is
exactly the rendering of the last `max_history_pairs` successful
(user, assistant) pairs in chronological order — hence it always
consists of complete pairs appended together (no turn ever leaves an
orphaned user-only entry), oldest pairs are evicted first, and its
length never exceeds `2 * max_history_pairs`. -/
theorem sessionHistory_spec (maxHistory : Nat) (turns : List (String × EngineOutcome)) :
    sessionHistory maxHistory turns =
      renderPairs (takeLast maxHistory (successPairs turns)) ∧
    (sessionHistory maxHistory turns).length ≤ 2 * maxHistory := by
  have h0 : renderPairs (takeLast maxHistory []) = [] := by
    simp [takeLast, renderPairs]
  have h := sessionHistory_aux maxHistory turns []
  rw [h0, List.nil_append] at h
  refine ⟨h, ?_⟩
  rw [show sessionHistory maxHistory turns =
    renderPairs (takeLast maxHistory (successPairs turns)) from h]
  rw [renderPairs_length]
  have := takeLast_length_le maxHistory (successPairs turns)
  omega


end SttTts
